import Mathlib

/-!
Shallow embedding of the Weylus capture/lifecycle core:
src/protocol.rs, src/x11helper.rs and src/screen_capture/linux.rs.

Native library calls (extern "C") and the behaviour of external crates
(serde, bitflags, std) are modelled explicitly; each such model carries a
doc comment naming what it stands for.  All machine integers are modelled
as Nat/Int; JSON numbers are stored exactly, so the f64/i64/u64/i32 fields
of the protocol are carried as exact integers (representative values).
-/

namespace Weylus

/-- Modelled from the spec: the ErrorChannel (CError, src/cerror.rs is not
among the given source files): a numeric code plus a message; code 0 means
success, any nonzero code is an error. -/
structure CError where
  code : Nat
  message : String
deriving Repr, DecidableEq

/-- Modelled from the spec: CError::new constructs a fresh success value
(code 0) before each native call. -/
def CError.new : CError := { code := 0, message := "" }

/-- Modelled from the spec: CError::is_err — code 0 = success, nonzero =
error. -/
def CError.is_err (e : CError) : Bool := decide (e.code ≠ 0)

/-! ## DisplayContext enumeration (src/x11helper.rs, X11Context::capturables) -/

/-- Outcome of the native create_capturables call (extern, opaque): the error
object written through the err out-parameter, the returned count, and the
handle values written into the caller's array.  Handles are opaque, modelled
as naturals. -/
structure EnumResult where
  err : CError
  size : Nat
  handles : List Nat
deriving Repr, DecidableEq

/-- X11Context::capturables (src/x11helper.rs lines 170-197), as a function of
the native call's outcome: if err.is_err() and the code is 2 the error is only
logged (debug!) and the function falls through; any other nonzero code returns
Err(err) before any handle is wrapped; otherwise Ok of the first size handles. -/
def X11Context.capturables (r : EnumResult) : Except CError (List Nat) :=
  if r.err.is_err then
    if r.err.code = 2 then Except.ok (r.handles.take r.size)
    else Except.error r.err
  else Except.ok (r.handles.take r.size)

/-- Modelled from the spec: the native enumeration's "empty" advisory code
(code 2, "no targets found") is reported precisely when zero targets were
written, so the returned count is 0.  The native create_capturables is not
among the given source files. -/
def EnumResult.emptyAdvisoryContract (r : EnumResult) : Prop :=
  r.err.code = 2 → r.size = 0

/-! ## CaptureSession (src/screen_capture/linux.rs, ScreenCaptureX11) -/

/-- CImage (src/screen_capture/linux.rs lines 22-27): the caller-supplied image
descriptor the native capture writes into.  The data pointer is modelled as an
optional byte list: none stands for the null pointer. -/
structure CImage where
  data : Option (List Nat)
  width : Nat
  height : Nat
deriving Repr, DecidableEq

/-- CImage::new (src/screen_capture/linux.rs lines 29-36): null data pointer,
width 0, height 0. -/
def CImage.new : CImage := { data := none, width := 0, height := 0 }

/-- CImage::size (src/screen_capture/linux.rs lines 38-40): width * height * 4
bytes. -/
def CImage.size (img : CImage) : Nat := img.width * img.height * 4

/-- PixelProvider (src/video.rs, not among the given source files; only the
two constructors used by linux.rs are modelled): none, or a BGR0 byte view. -/
inductive PixelProvider where
  | none
  | bgr0 (data : List Nat)
deriving Repr, DecidableEq

/-- ScreenCaptureX11 (src/screen_capture/linux.rs lines 47-54).  The native
session handle and the held capturable do not influence the pure frame-buffer
behaviour and are modelled by the remaining fields. -/
structure ScreenCaptureX11 where
  img : CImage
  capture_cursor : Bool
deriving Repr, DecidableEq

/-- Outcome of one native capture_sceen call (extern, opaque): either a
successful frame (data written, dimensions set, err left at success) or a
failure reported through err. -/
inductive NativeCapture where
  | ok (data : List Nat) (width height : Nat)
  | fail (err : CError)
deriving Repr, DecidableEq

/-- A native capture outcome counts as failing when the error object it wrote
satisfies is_err(). -/
def NativeCapture.isFail : NativeCapture → Bool
  | NativeCapture.ok _ _ _ => false
  | NativeCapture.fail e => e.is_err

/-- Modelled from the spec: the effect of the native capture_sceen (not among
the given source files) on the caller's image descriptor — on success it
writes the frame's data pointer and dimensions, on failure it reports through
err and the descriptor keeps its previous contents. -/
def nativeCaptureEffect (img : CImage) (r : NativeCapture) : CImage × CError :=
  match r with
  | NativeCapture.ok d w h => ({ data := some d, width := w, height := h }, CError.new)
  | NativeCapture.fail e => (img, e)

/-- ScreenCaptureX11::capture (src/screen_capture/linux.rs lines 87-105):
runs the native capture into self.img; if err.is_err() the data pointer is
nulled and Err is returned, otherwise Ok(()). -/
def ScreenCaptureX11.capture (s : ScreenCaptureX11) (r : NativeCapture) :
    ScreenCaptureX11 × Except CError Unit :=
  let res := nativeCaptureEffect s.img r
  if res.2.is_err then
    ({ s with img := { res.1 with data := none } }, Except.error res.2)
  else
    ({ s with img := res.1 }, Except.ok ())

/-- ScreenCaptureX11::pixel_provider (src/screen_capture/linux.rs lines
107-113): none while the data pointer is null, otherwise a BGR0 view of
self.img.data() (the first size() bytes of the buffer). -/
def ScreenCaptureX11.pixel_provider (s : ScreenCaptureX11) : PixelProvider :=
  match s.img.data with
  | Option.none => PixelProvider.none
  | Option.some d => PixelProvider.bgr0 (d.take s.img.size)

/-- ScreenCaptureX11::size (src/screen_capture/linux.rs lines 115-117). -/
def ScreenCaptureX11.size (s : ScreenCaptureX11) : Nat × Nat :=
  (s.img.width, s.img.height)

/-- The session state produced by a successful ScreenCaptureX11::new
(src/screen_capture/linux.rs lines 65-70): fresh CImage, stored cursor flag. -/
def ScreenCaptureX11.fresh (capture_cursor : Bool) : ScreenCaptureX11 :=
  { img := CImage.new, capture_cursor := capture_cursor }

/-- ScreenCaptureX11::new (src/screen_capture/linux.rs lines 57-72) as a
function of the error the native start_capture wrote: on error the
constructor returns Err and no session value exists; otherwise the session. -/
def ScreenCaptureX11.new (startErr : CError) (capture_cursor : Bool) :
    Except CError ScreenCaptureX11 :=
  if startErr.is_err then Except.error startErr
  else Except.ok (ScreenCaptureX11.fresh capture_cursor)

/-- Whether ScreenCaptureX11::new produced a session value. -/
def sessionCreated (startErr : CError) (capture_cursor : Bool) : Bool :=
  match ScreenCaptureX11.new startErr capture_cursor with
  | Except.ok _ => true
  | Except.error _ => false

/-- Iterated capture() calls, threading the session state. -/
def runCaptures (s : ScreenCaptureX11) (rs : List NativeCapture) : ScreenCaptureX11 :=
  rs.foldl (fun acc r => (acc.capture r).1) s

/-! ## Native-call traces (locking discipline and lifecycle) -/

/-- The native extern calls appearing in the three source files. -/
inductive NativeKind where
  | xOpenDisplay
  | xCloseDisplay
  | createCapturables
  | cloneCapturable
  | destroyCapturable
  | getCapturableName
  | capturableBeforeInput
  | getGeometryRelative
  | mapInputDevice
  | startCapture
  | captureSceen
  | stopCapture
deriving Repr, DecidableEq

/-- Events of one operation at the native boundary: acquiring the fltk
native/UI lock (fltk::app::lock().unwrap()), releasing it
(fltk::app::unlock()), or performing one native call. -/
inductive Event where
  | lock
  | unlock
  | native (k : NativeKind)
deriving Repr, DecidableEq

/-- The shape the spec demands of every native call: lock acquired immediately
before, released immediately after. -/
def lockedCall (k : NativeKind) : List Event := [Event.lock, Event.native k, Event.unlock]

/-- Check, carrying the current lock depth, that every native event of a trace
happens while the lock is held. -/
def checkLocked : Nat → List Event → Bool
  | _, [] => true
  | d, Event.lock :: rest => checkLocked (d + 1) rest
  | d, Event.unlock :: rest => checkLocked (d - 1) rest
  | d, Event.native _ :: rest => decide (0 < d) && checkLocked d rest

/-- Every native event of the trace happens while the lock is held. -/
def nativeUnderLock (t : List Event) : Bool := checkLocked 0 t

/-- XDisplay::new (src/x11helper.rs lines 141-147): XOpenDisplay is called
with no lock around it. -/
def xdisplayNewTrace : List Event := [Event.native NativeKind.xOpenDisplay]

/-- Drop for XDisplay (src/x11helper.rs lines 150-156): lock, XCloseDisplay,
unlock. -/
def xdisplayDropTrace : List Event :=
  [Event.lock, Event.native NativeKind.xCloseDisplay, Event.unlock]

/-- X11Context::capturables (src/x11helper.rs lines 170-197): lock,
create_capturables, unlock. -/
def capturablesTrace : List Event :=
  [Event.lock, Event.native NativeKind.createCapturables, Event.unlock]

/-- Clone for X11Capturable (src/x11helper.rs lines 48-56): clone_capturable
is called with no lock around it. -/
def capturableCloneTrace : List Event := [Event.native NativeKind.cloneCapturable]

/-- Drop for X11Capturable (src/x11helper.rs lines 121-127): destroy_capturable
is called with no lock around it. -/
def capturableDropTrace : List Event := [Event.native NativeKind.destroyCapturable]

/-- X11Capturable::name (src/x11helper.rs lines 65-71): get_capturable_name is
called with no lock around it. -/
def capturableNameTrace : List Event := [Event.native NativeKind.getCapturableName]

/-- X11Capturable::geometry (src/x11helper.rs lines 73-100): lock,
get_geometry_relative, unlock. -/
def geometryTrace : List Event :=
  [Event.lock, Event.native NativeKind.getGeometryRelative, Event.unlock]

/-- X11Capturable::before_input (src/x11helper.rs lines 102-112): lock,
capturable_before_input, unlock. -/
def beforeInputTrace : List Event :=
  [Event.lock, Event.native NativeKind.capturableBeforeInput, Event.unlock]

/-- X11Context::map_input_device_to_entire_screen (src/x11helper.rs lines
199-216): lock, map_input_device_to_entire_screen, unlock. -/
def mapInputTrace : List Event :=
  [Event.lock, Event.native NativeKind.mapInputDevice, Event.unlock]

/-- ScreenCaptureX11::new (src/screen_capture/linux.rs lines 57-72): lock,
start_capture, unlock. -/
def sessionStartTrace : List Event :=
  [Event.lock, Event.native NativeKind.startCapture, Event.unlock]

/-- Drop for ScreenCaptureX11 (src/screen_capture/linux.rs lines 75-84): lock,
stop_capture, unlock. -/
def sessionDropTrace : List Event :=
  [Event.lock, Event.native NativeKind.stopCapture, Event.unlock]

/-- ScreenCaptureX11::capture (src/screen_capture/linux.rs lines 87-105): lock,
capture_sceen, unlock. -/
def captureTrace : List Event :=
  [Event.lock, Event.native NativeKind.captureSceen, Event.unlock]

/-- Count of stop_capture calls in a trace of native calls. -/
def stopsIn : List NativeKind → Nat
  | [] => 0
  | k :: rest => (if k = NativeKind.stopCapture then 1 else 0) + stopsIn rest

/-- The native calls a session issues over its whole life, as written in
src/screen_capture/linux.rs: new always calls start_capture once; if new
returned Err no session value exists, so Drop never runs and nothing more is
called; otherwise each capture() calls capture_sceen and Drop finally calls
stop_capture exactly once (Rust runs Drop exactly once on an owned value). -/
def sessionLifecycleTrace (startErr : CError) (capture_cursor : Bool)
    (captures : List NativeCapture) : List NativeKind :=
  match ScreenCaptureX11.new startErr capture_cursor with
  | Except.error _ => [NativeKind.startCapture]
  | Except.ok _ =>
      NativeKind.startCapture ::
        ((captures.map fun _ => NativeKind.captureSceen) ++ [NativeKind.stopCapture])

/-! ## Shared display lifetime (src/x11helper.rs, Arc of XDisplay) -/

/-- State of the shared XDisplay: how many holders of the Arc of XDisplay are
alive (the X11Context itself plus every X11Capturable), and whether
XCloseDisplay has run (Drop for XDisplay, src/x11helper.rs lines 150-156). -/
structure DispState where
  holders : Nat
  closed : Bool
deriving Repr, DecidableEq

/-- Right after X11Context::new (src/x11helper.rs lines 163-168): the context
is the single holder and the display is open. -/
def initDisp : DispState := { holders := 1, closed := false }

/-- Modelled from the spec: reference-counted shared ownership (std Arc, an
external library).  acquire is any Arc clone — X11Capturable construction in
capturables (src/x11helper.rs line 194) or Clone for X11Capturable (line 53);
release is any holder being dropped.  When the last holder releases, Drop for
XDisplay runs and closes the display. -/
inductive ArcOp where
  | acquire
  | release
deriving Repr, DecidableEq

/-- One acquire/release step on the shared-display state. -/
def ArcOp.step (s : DispState) : ArcOp → DispState
  | ArcOp.acquire => { holders := s.holders + 1, closed := s.closed }
  | ArcOp.release => { holders := s.holders - 1, closed := s.closed || decide (s.holders = 1) }

/-- Run a sequence of acquire/release steps. -/
def runOps (s : DispState) (ops : List ArcOp) : DispState := ops.foldl ArcOp.step s

/-- An op sequence is valid when every step happens while at least one holder
is alive: clones are made from a live holder and only live holders drop. -/
def validFrom (s : DispState) : List ArcOp → Bool
  | [] => true
  | op :: rest => decide (0 < s.holders) && validFrom (ArcOp.step s op) rest

/-! ## Input-device mapping (src/x11helper.rs, map_input_device_to_entire_screen) -/

/-- Modelled from std::ffi (external): CString::new fails exactly when the
string holds an interior NUL byte. -/
def hasInteriorNul (s : String) : Bool := s.toList.contains (Char.ofNat 0)

/-- How a call to map_input_device_to_entire_screen ends: either the
CString::new(..).unwrap() panicked, or the function returned normally with the
flag telling whether the native failure was logged, carrying the error object
as its plain return value. -/
inductive MapOutcome where
  | panicked
  | returned (logged : Bool) (err : CError)
deriving Repr, DecidableEq

/-- X11Context::map_input_device_to_entire_screen (src/x11helper.rs lines
199-216) as a function of the error the native call would write: the device
name is converted with CString::new(..).unwrap(), which panics on an interior
NUL byte; otherwise the native call runs and on err.is_err() the failure is
only logged (debug!), the error object being returned as a plain value —
the return type is CError, not a Result, so no Err is ever propagated. -/
def X11Context.map_input_device_to_entire_screen (device_name : String)
    (pen : Bool) (nativeErr : CError) : MapOutcome :=
  if hasInteriorNul device_name then MapOutcome.panicked
  else MapOutcome.returned nativeErr.is_err nativeErr

/-! ## Protocol layer (src/protocol.rs) -/

/-- The JSON-like value tree serde maps values through; numbers are stored
exactly (integral representative values of the f64 fields included). -/
inductive Json where
  | null
  | bool (b : Bool)
  | num (n : Int)
  | str (s : String)
  | arr (xs : List Json)
  | obj (fields : List (String × Json))
deriving Repr

/-- PointerType (src/protocol.rs lines 33-43). -/
inductive PointerType where
  | unknown
  | mouse
  | pen
  | touch
deriving Repr, DecidableEq

/-- PointerEventType (src/protocol.rs lines 45-55). -/
inductive PointerEventType where
  | down
  | up
  | cancel
  | move
deriving Repr, DecidableEq

/-- Button (src/protocol.rs lines 57-67): a bitflags struct over u8; the value
is the stored bits field. -/
abbrev Button := Nat

/-- Button::NONE (src/protocol.rs line 60). -/
def Button.NONE : Button := 0b00000000

/-- Button::PRIMARY (src/protocol.rs line 61). -/
def Button.PRIMARY : Button := 0b00000001

/-- Button::SECONDARY (src/protocol.rs line 62). -/
def Button.SECONDARY : Button := 0b00000010

/-- Button::AUXILARY (src/protocol.rs line 63). -/
def Button.AUXILARY : Button := 0b00000100

/-- Button::FOURTH (src/protocol.rs line 64). -/
def Button.FOURTH : Button := 0b00001000

/-- Button::FIFTH (src/protocol.rs line 65). -/
def Button.FIFTH : Button := 0b00010000

/-- Button::all() as generated by bitflags: the union of the defined flags. -/
def Button.allBits : Button :=
  Button.NONE ||| Button.PRIMARY ||| Button.SECONDARY |||
    Button.AUXILARY ||| Button.FOURTH ||| Button.FIFTH

/-- Button::from_bits_truncate (bitflags, external library): keep the defined
bits, discard the rest. -/
def Button.from_bits_truncate (bits : Nat) : Button := bits &&& Button.allBits

/-- PointerEvent (src/protocol.rs lines 74-95).  Numeric fields (i64, u64,
i32, f64) are modelled as exact integers. -/
structure PointerEvent where
  event_type : PointerEventType
  pointer_id : Int
  timestamp : Int
  is_primary : Bool
  pointer_type : PointerType
  button : Button
  buttons : Button
  x : Int
  y : Int
  movement_x : Int
  movement_y : Int
  pressure : Int
  tilt_x : Int
  tilt_y : Int
  twist : Int
  width : Int
  height : Int
deriving Repr, DecidableEq

/-- ClientConfiguration (src/protocol.rs lines 3-11); usize fields modelled as
exact integers. -/
structure ClientConfiguration where
  stylus_support : Bool
  faster_capture : Bool
  capturable_id : Int
  capture_cursor : Bool
  max_width : Int
  max_height : Int
deriving Repr, DecidableEq

/-- MessageInbound (src/protocol.rs lines 13-22). -/
inductive MessageInbound where
  | pointerEvent (e : PointerEvent)
  | tryGetFrame
  | getCapturableList
  | config (c : ClientConfiguration)
deriving Repr, DecidableEq

/-- MessageOutbound (src/protocol.rs lines 24-31). -/
inductive MessageOutbound where
  | capturableList (names : List String)
  | newVideo
  | configOk
  | configError (reason : String)
  | error (message : String)
deriving Repr, DecidableEq

/-- Serde encoding of PointerType with its rename attributes
(src/protocol.rs lines 33-43). -/
def encodePointerType : PointerType → Json
  | PointerType.unknown => Json.str ""
  | PointerType.mouse => Json.str "mouse"
  | PointerType.pen => Json.str "pen"
  | PointerType.touch => Json.str "touch"

/-- Serde decoding of PointerType (src/protocol.rs lines 33-43). -/
def decodePointerType : Json → Except String PointerType
  | Json.str "" => Except.ok PointerType.unknown
  | Json.str "mouse" => Except.ok PointerType.mouse
  | Json.str "pen" => Except.ok PointerType.pen
  | Json.str "touch" => Except.ok PointerType.touch
  | _ => Except.error "unknown variant of PointerType"

/-- Serde encoding of PointerEventType with its rename attributes
(src/protocol.rs lines 45-55). -/
def encodePointerEventType : PointerEventType → Json
  | PointerEventType.down => Json.str "pointerdown"
  | PointerEventType.up => Json.str "pointerup"
  | PointerEventType.cancel => Json.str "pointercancel"
  | PointerEventType.move => Json.str "pointermove"

/-- Serde decoding of PointerEventType (src/protocol.rs lines 45-55). -/
def decodePointerEventType : Json → Except String PointerEventType
  | Json.str "pointerdown" => Except.ok PointerEventType.down
  | Json.str "pointerup" => Except.ok PointerEventType.up
  | Json.str "pointercancel" => Except.ok PointerEventType.cancel
  | Json.str "pointermove" => Except.ok PointerEventType.move
  | _ => Except.error "unknown variant of PointerEventType"

/-- The derived Serialize of the bitflags-generated Button struct
(src/protocol.rs lines 57-67): a struct with the single field bits, hence an
object holding the bits value — not a bare integer. -/
def encodeButton (b : Button) : Json := Json.obj [("bits", Json.num (b : Int))]

/-- Serde-json deserialization of a u8 (external library): a number in
0..=255, anything else is an error. -/
def decodeU8 : Json → Except String Nat
  | Json.num n =>
      if 0 ≤ n ∧ n < 256 then Except.ok n.toNat
      else Except.error "invalid value: expected u8"
  | _ => Except.error "invalid type: expected u8"

/-- from_str (src/protocol.rs lines 69-72): deserialize a u8, then
Button::from_bits_truncate — unknown bits are dropped, never an error. -/
def from_str (j : Json) : Except String Button :=
  (decodeU8 j).map Button.from_bits_truncate

/-- Field access of serde's map deserialization: first entry with the key. -/
def getField (fields : List (String × Json)) (key : String) : Except String Json :=
  match fields with
  | [] => Except.error ("missing field " ++ key)
  | (k, v) :: rest => if k = key then Except.ok v else getField rest key

/-- Serde decoding of a bool. -/
def decodeBool : Json → Except String Bool
  | Json.bool b => Except.ok b
  | _ => Except.error "invalid type: expected bool"

/-- Serde decoding of a numeric field (i64/u64/i32/usize/f64 — modelled as
exact integers, see the module comment). -/
def decodeNum : Json → Except String Int
  | Json.num n => Except.ok n
  | _ => Except.error "invalid type: expected number"

/-- Serde decoding of a string. -/
def decodeString : Json → Except String String
  | Json.str s => Except.ok s
  | _ => Except.error "invalid type: expected string"

/-- Derived Serialize of PointerEvent (src/protocol.rs lines 74-95): fields in
declaration order; button and buttons use Button's derived Serialize (the
deserialize_with attribute touches only deserialization). -/
def encodePointerEvent (e : PointerEvent) : Json :=
  Json.obj
    [("event_type", encodePointerEventType e.event_type),
     ("pointer_id", Json.num e.pointer_id),
     ("timestamp", Json.num e.timestamp),
     ("is_primary", Json.bool e.is_primary),
     ("pointer_type", encodePointerType e.pointer_type),
     ("button", encodeButton e.button),
     ("buttons", encodeButton e.buttons),
     ("x", Json.num e.x),
     ("y", Json.num e.y),
     ("movement_x", Json.num e.movement_x),
     ("movement_y", Json.num e.movement_y),
     ("pressure", Json.num e.pressure),
     ("tilt_x", Json.num e.tilt_x),
     ("tilt_y", Json.num e.tilt_y),
     ("twist", Json.num e.twist),
     ("width", Json.num e.width),
     ("height", Json.num e.height)]

/-- The wire encoding of PointerEvent following the spec's words (section 6:
"Button/buttons encode as a single unsigned 8-bit integer"): identical to the
derived encoding except that button and buttons are bare integers.  Declared
for comparison with the derived encoder taken from the source. -/
def encodePointerEventWire (e : PointerEvent) : Json :=
  Json.obj
    [("event_type", encodePointerEventType e.event_type),
     ("pointer_id", Json.num e.pointer_id),
     ("timestamp", Json.num e.timestamp),
     ("is_primary", Json.bool e.is_primary),
     ("pointer_type", encodePointerType e.pointer_type),
     ("button", Json.num (e.button : Int)),
     ("buttons", Json.num (e.buttons : Int)),
     ("x", Json.num e.x),
     ("y", Json.num e.y),
     ("movement_x", Json.num e.movement_x),
     ("movement_y", Json.num e.movement_y),
     ("pressure", Json.num e.pressure),
     ("tilt_x", Json.num e.tilt_x),
     ("tilt_y", Json.num e.tilt_y),
     ("twist", Json.num e.twist),
     ("width", Json.num e.width),
     ("height", Json.num e.height)]

/-- Derived Deserialize of PointerEvent (src/protocol.rs lines 74-95): fields
looked up by name; button and buttons go through from_str
(deserialize_with). -/
def decodePointerEvent : Json → Except String PointerEvent
  | Json.obj fields => do
      let event_type ← decodePointerEventType (← getField fields "event_type")
      let pointer_id ← decodeNum (← getField fields "pointer_id")
      let timestamp ← decodeNum (← getField fields "timestamp")
      let is_primary ← decodeBool (← getField fields "is_primary")
      let pointer_type ← decodePointerType (← getField fields "pointer_type")
      let button ← from_str (← getField fields "button")
      let buttons ← from_str (← getField fields "buttons")
      let x ← decodeNum (← getField fields "x")
      let y ← decodeNum (← getField fields "y")
      let movement_x ← decodeNum (← getField fields "movement_x")
      let movement_y ← decodeNum (← getField fields "movement_y")
      let pressure ← decodeNum (← getField fields "pressure")
      let tilt_x ← decodeNum (← getField fields "tilt_x")
      let tilt_y ← decodeNum (← getField fields "tilt_y")
      let twist ← decodeNum (← getField fields "twist")
      let width ← decodeNum (← getField fields "width")
      let height ← decodeNum (← getField fields "height")
      Except.ok
        { event_type := event_type, pointer_id := pointer_id,
          timestamp := timestamp, is_primary := is_primary,
          pointer_type := pointer_type, button := button, buttons := buttons,
          x := x, y := y, movement_x := movement_x, movement_y := movement_y,
          pressure := pressure, tilt_x := tilt_x, tilt_y := tilt_y,
          twist := twist, width := width, height := height }
  | _ => Except.error "invalid type: expected map for PointerEvent"

/-- Derived Serialize of ClientConfiguration (src/protocol.rs lines 3-11). -/
def encodeClientConfiguration (c : ClientConfiguration) : Json :=
  Json.obj
    [("stylus_support", Json.bool c.stylus_support),
     ("faster_capture", Json.bool c.faster_capture),
     ("capturable_id", Json.num c.capturable_id),
     ("capture_cursor", Json.bool c.capture_cursor),
     ("max_width", Json.num c.max_width),
     ("max_height", Json.num c.max_height)]

/-- Derived Deserialize of ClientConfiguration (src/protocol.rs lines 3-11). -/
def decodeClientConfiguration : Json → Except String ClientConfiguration
  | Json.obj fields => do
      let stylus_support ← decodeBool (← getField fields "stylus_support")
      let faster_capture ← decodeBool (← getField fields "faster_capture")
      let capturable_id ← decodeNum (← getField fields "capturable_id")
      let capture_cursor ← decodeBool (← getField fields "capture_cursor")
      let max_width ← decodeNum (← getField fields "max_width")
      let max_height ← decodeNum (← getField fields "max_height")
      Except.ok
        { stylus_support := stylus_support, faster_capture := faster_capture,
          capturable_id := capturable_id, capture_cursor := capture_cursor,
          max_width := max_width, max_height := max_height }
  | _ => Except.error "invalid type: expected map for ClientConfiguration"

/-- Derived Serialize of MessageInbound (src/protocol.rs lines 13-22):
serde's external tagging — unit variants as their name string, data variants
as a single-entry object. -/
def encodeMessageInbound : MessageInbound → Json
  | MessageInbound.pointerEvent e => Json.obj [("PointerEvent", encodePointerEvent e)]
  | MessageInbound.tryGetFrame => Json.str "TryGetFrame"
  | MessageInbound.getCapturableList => Json.str "GetCapturableList"
  | MessageInbound.config c => Json.obj [("Config", encodeClientConfiguration c)]

/-- Derived Deserialize of MessageInbound (src/protocol.rs lines 13-22). -/
def decodeMessageInbound : Json → Except String MessageInbound
  | Json.str "TryGetFrame" => Except.ok MessageInbound.tryGetFrame
  | Json.str "GetCapturableList" => Except.ok MessageInbound.getCapturableList
  | Json.obj [("PointerEvent", v)] => (decodePointerEvent v).map MessageInbound.pointerEvent
  | Json.obj [("Config", v)] => (decodeClientConfiguration v).map MessageInbound.config
  | _ => Except.error "unknown variant of MessageInbound"

/-- Serde decoding of the elements of a JSON array as strings, in order. -/
def decodeStrings : List Json → Except String (List String)
  | [] => Except.ok []
  | j :: rest => do
      let s ← decodeString j
      let t ← decodeStrings rest
      Except.ok (s :: t)

/-- Serde decoding of a Vec of String. -/
def decodeStringList : Json → Except String (List String)
  | Json.arr xs => decodeStrings xs
  | _ => Except.error "invalid type: expected array"

/-- Derived Serialize of MessageOutbound (src/protocol.rs lines 24-31). -/
def encodeMessageOutbound : MessageOutbound → Json
  | MessageOutbound.capturableList names =>
      Json.obj [("CapturableList", Json.arr (names.map Json.str))]
  | MessageOutbound.newVideo => Json.str "NewVideo"
  | MessageOutbound.configOk => Json.str "ConfigOk"
  | MessageOutbound.configError reason => Json.obj [("ConfigError", Json.str reason)]
  | MessageOutbound.error message => Json.obj [("Error", Json.str message)]

/-- Derived Deserialize of MessageOutbound (src/protocol.rs lines 24-31). -/
def decodeMessageOutbound : Json → Except String MessageOutbound
  | Json.str "NewVideo" => Except.ok MessageOutbound.newVideo
  | Json.str "ConfigOk" => Except.ok MessageOutbound.configOk
  | Json.obj [("CapturableList", v)] => (decodeStringList v).map MessageOutbound.capturableList
  | Json.obj [("ConfigError", v)] => (decodeString v).map MessageOutbound.configError
  | Json.obj [("Error", v)] => (decodeString v).map MessageOutbound.error
  | _ => Except.error "unknown variant of MessageOutbound"

/-! ## Sample values used by witnesses and counterexamples -/

/-- A concrete advisory enumeration outcome: the "empty" code 2 with zero
targets. -/
def sampleAdvisoryEnum : EnumResult :=
  { err := { code := 2, message := "no capturables found" }, size := 0, handles := [] }

/-- A concrete failing native capture outcome. -/
def sampleFailA : NativeCapture := NativeCapture.fail { code := 3, message := "capture failed" }

/-- Another concrete failing native capture outcome. -/
def sampleFailB : NativeCapture := NativeCapture.fail { code := 4, message := "still failing" }

/-- A freshly constructed session. -/
def sampleSession : ScreenCaptureX11 := ScreenCaptureX11.fresh true

/-- A session that already holds a successfully captured 2x2 frame. -/
def sampleFrameSession : ScreenCaptureX11 :=
  { img := { data := some [1, 2, 3, 4], width := 2, height := 2 }, capture_cursor := false }

/-- A representative client configuration. -/
def sampleConfig : ClientConfiguration :=
  { stylus_support := true, faster_capture := false, capturable_id := 3,
    capture_cursor := true, max_width := 1920, max_height := 1080 }

/-- A representative pointer event (primary button changed, primary and fifth
held). -/
def samplePointerEvent : PointerEvent :=
  { event_type := PointerEventType.down, pointer_id := 1, timestamp := 1234,
    is_primary := true, pointer_type := PointerType.pen,
    button := Button.PRIMARY, buttons := Button.PRIMARY ||| Button.FIFTH,
    x := 100, y := 200, movement_x := 5, movement_y := -5, pressure := 1,
    tilt_x := 10, tilt_y := -10, twist := 90, width := 3, height := 3 }

/-- A representative outbound message. -/
def sampleOutbound : MessageOutbound :=
  MessageOutbound.capturableList ["Desktop", "Window A"]

/-! ## Helper lemmas -/

theorem Button.allBits_eq : Button.allBits = 31 := rfl

theorem decodeU8_natCast (b : Nat) (hb : b < 256) :
    decodeU8 (Json.num (b : Int)) = Except.ok b := by
  simp [decodeU8, Int.toNat_natCast]
  omega

theorem from_str_natCast (b : Nat) (hb : b < 256) :
    from_str (Json.num (b : Int)) = Except.ok (b &&& 31) := by
  simp [from_str, decodeU8_natCast b hb, Except.map, Button.from_bits_truncate,
    Button.allBits_eq]

theorem decodePET_encode (x : PointerEventType) :
    decodePointerEventType (encodePointerEventType x) = Except.ok x := by
  cases x <;> rfl

theorem decodePT_encode (x : PointerType) :
    decodePointerType (encodePointerType x) = Except.ok x := by
  cases x <;> rfl

set_option maxRecDepth 4000 in
theorem wire_decode (e : PointerEvent) (hb : e.button &&& 31 = e.button)
    (hbs : e.buttons &&& 31 = e.buttons) :
    decodePointerEvent (encodePointerEventWire e) = Except.ok e := by
  obtain ⟨et, pid, ts, ip, pt, b, bs, x, y, mx, my, pr, tx, ty, tw, w, h⟩ := e
  have hb2 : b &&& 31 = b := hb
  have hbs2 : bs &&& 31 = bs := hbs
  have hble : b ≤ 31 := by rw [← hb2]; exact Nat.and_le_right
  have hbsle : bs ≤ 31 := by rw [← hbs2]; exact Nat.and_le_right
  have hb' : b < 256 := Nat.lt_of_le_of_lt hble (by decide)
  have hbs' : bs < 256 := Nat.lt_of_le_of_lt hbsle (by decide)
  have key : decodePointerEvent (encodePointerEventWire
      ⟨et, pid, ts, ip, pt, b, bs, x, y, mx, my, pr, tx, ty, tw, w, h⟩) =
      Except.bind (decodePointerEventType (encodePointerEventType et)) (fun event_type =>
      Except.bind (decodePointerType (encodePointerType pt)) (fun pointer_type =>
      Except.bind (from_str (Json.num (b : Int))) (fun button =>
      Except.bind (from_str (Json.num (bs : Int))) (fun buttons =>
      Except.ok ⟨event_type, pid, ts, ip, pointer_type, button, buttons,
        x, y, mx, my, pr, tx, ty, tw, w, h⟩)))) := rfl
  rw [key, decodePET_encode, decodePT_encode, from_str_natCast b hb',
    from_str_natCast bs hbs']
  simp [Except.bind, hb2, hbs2]

theorem decodeStrings_map (names : List String) :
    decodeStrings (names.map Json.str) = Except.ok names := by
  induction names with
  | nil => rfl
  | cons a t ih => simp [decodeStrings, decodeString, ih, Bind.bind, Except.bind]

theorem outbound_rt (m : MessageOutbound) :
    decodeMessageOutbound (encodeMessageOutbound m) = Except.ok m := by
  cases m with
  | capturableList names =>
      have hstep : decodeMessageOutbound (encodeMessageOutbound
          (MessageOutbound.capturableList names)) =
          (decodeStrings (names.map Json.str)).map MessageOutbound.capturableList := rfl
      rw [hstep, decodeStrings_map]
      rfl
  | newVideo => rfl
  | configOk => rfl
  | configError s => rfl
  | error s => rfl

theorem capture_fail_img (s : ScreenCaptureX11) (r : NativeCapture) (h : r.isFail = true) :
    (s.capture r).1 = { img := { data := none, width := s.img.width, height := s.img.height },
                        capture_cursor := s.capture_cursor } := by
  cases r with
  | ok d w hh => simp [NativeCapture.isFail] at h
  | fail e =>
      simp only [NativeCapture.isFail] at h
      simp [ScreenCaptureX11.capture, nativeCaptureEffect, h]

theorem capture_fail_err (s : ScreenCaptureX11) (r : NativeCapture) (h : r.isFail = true) :
    ∃ e, (s.capture r).2 = Except.error e := by
  cases r with
  | ok d w hh => simp [NativeCapture.isFail] at h
  | fail e =>
      refine ⟨e, ?_⟩
      simp only [NativeCapture.isFail] at h
      simp [ScreenCaptureX11.capture, nativeCaptureEffect, h]

theorem capture_ok_state (s : ScreenCaptureX11) (d : List Nat) (w h : Nat) :
    s.capture (NativeCapture.ok d w h) =
      ({ img := { data := some d, width := w, height := h },
         capture_cursor := s.capture_cursor }, Except.ok ()) := by
  simp [ScreenCaptureX11.capture, nativeCaptureEffect, CError.new, CError.is_err]

theorem pixel_provider_of_none (s : ScreenCaptureX11) (h : s.img.data = none) :
    s.pixel_provider = PixelProvider.none := by
  unfold ScreenCaptureX11.pixel_provider
  rw [h]

theorem runCaptures_fail (rs : List NativeCapture) : ∀ s : ScreenCaptureX11,
    rs.all NativeCapture.isFail = true →
    (runCaptures s rs).img.width = s.img.width ∧
    (runCaptures s rs).img.height = s.img.height ∧
    ((runCaptures s rs).img.data = s.img.data ∨ (runCaptures s rs).img.data = none) := by
  induction rs with
  | nil => intro s _; exact ⟨rfl, rfl, Or.inl rfl⟩
  | cons r rest ih =>
      intro s hall
      simp only [List.all_cons, Bool.and_eq_true] at hall
      obtain ⟨hr, hrest⟩ := hall
      have hrun : runCaptures s (r :: rest) = runCaptures ((s.capture r).1) rest := rfl
      rw [hrun, capture_fail_img s r hr]
      rcases ih { img := { data := none, width := s.img.width, height := s.img.height },
                  capture_cursor := s.capture_cursor } hrest with ⟨hw, hh, hd⟩
      refine ⟨by rw [hw], by rw [hh], Or.inr ?_⟩
      rcases hd with hd | hd
      · rw [hd]
      · exact hd

theorem stopsIn_capturelist (n : Nat) :
    stopsIn (List.replicate n NativeKind.captureSceen ++ [NativeKind.stopCapture]) = 1 := by
  induction n with
  | zero => rfl
  | succ m ih => simpa [List.replicate_succ, stopsIn] using ih

theorem validFrom_closed_eq (ops : List ArcOp) : ∀ s : DispState,
    s.closed = decide (s.holders = 0) → validFrom s ops = true →
    (runOps s ops).closed = decide ((runOps s ops).holders = 0) := by
  induction ops with
  | nil => intro s hs _; simpa [runOps] using hs
  | cons op rest ih =>
      intro s hs h
      simp only [validFrom, Bool.and_eq_true, decide_eq_true_eq] at h
      obtain ⟨h0, hrest⟩ := h
      have hrun : runOps s (op :: rest) = runOps (ArcOp.step s op) rest := rfl
      rw [hrun]
      refine ih _ ?_ hrest
      cases op with
      | acquire =>
          simp [ArcOp.step]
          rw [hs]
          simp
          omega
      | release =>
          have hc : s.closed = false := by
            rw [hs]
            simp
            omega
          simp [ArcOp.step, hc, decide_eq_decide]
          omega

/-! ## Claim theorems -/

/-- C1: for every call to capturables() on a DisplayContext, if the native
enumeration reports the "empty" advisory code (2), the call returns an empty
sequence and no error; if it reports any other nonzero code, the call returns
a fatal failure carrying that code and no partial handle list. -/
theorem capturables_empty_advisory_other_fatal (r : EnumResult)
    (hadv : r.emptyAdvisoryContract) :
    (r.err.code = 2 → X11Context.capturables r = Except.ok []) ∧
    (r.err.code ≠ 0 → r.err.code ≠ 2 → X11Context.capturables r = Except.error r.err) := by
  constructor
  · intro h2
    have hsize := hadv h2
    simp [X11Context.capturables, CError.is_err, h2, hsize]
  · intro h0 h2
    simp [X11Context.capturables, CError.is_err, h0, h2]

/-- Witness for C1 at a concrete advisory enumeration outcome. -/
theorem capturables_empty_advisory_other_fatal_witness :
    EnumResult.emptyAdvisoryContract sampleAdvisoryEnum ∧
    ((sampleAdvisoryEnum.err.code = 2 →
        X11Context.capturables sampleAdvisoryEnum = Except.ok []) ∧
     (sampleAdvisoryEnum.err.code ≠ 0 → sampleAdvisoryEnum.err.code ≠ 2 →
        X11Context.capturables sampleAdvisoryEnum = Except.error sampleAdvisoryEnum.err)) :=
  ⟨fun _ => rfl, capturables_empty_advisory_other_fatal sampleAdvisoryEnum (fun _ => rfl)⟩

/-- C2: after a capture() that fails, pixel_provider() returns none — never
stale or partial pixel data — through any further failing captures, and the
session remains usable: the next successful capture() returns Ok and exposes
exactly the fresh frame. -/
theorem capture_failure_hides_pixels_until_success (s : ScreenCaptureX11)
    (r : NativeCapture) (rs : List NativeCapture) (d : List Nat) (w h : Nat)
    (hr : r.isFail = true) (hrs : rs.all NativeCapture.isFail = true) :
    (∃ e, (s.capture r).2 = Except.error e) ∧
    ((s.capture r).1).pixel_provider = PixelProvider.none ∧
    (runCaptures ((s.capture r).1) rs).pixel_provider = PixelProvider.none ∧
    ((runCaptures ((s.capture r).1) rs).capture (NativeCapture.ok d w h)).2 = Except.ok () ∧
    (((runCaptures ((s.capture r).1) rs).capture (NativeCapture.ok d w h)).1).pixel_provider
      = PixelProvider.bgr0 (d.take (w * h * 4)) := by
  have h1 := capture_fail_img s r hr
  refine ⟨capture_fail_err s r hr, ?_, ?_, ?_, ?_⟩
  · rw [h1]
    exact pixel_provider_of_none _ rfl
  · rcases runCaptures_fail rs ((s.capture r).1) hrs with ⟨_, _, hd⟩
    apply pixel_provider_of_none
    rcases hd with hd | hd
    · rw [hd, h1]
    · exact hd
  · rw [capture_ok_state]
  · rw [capture_ok_state]
    rfl

/-- Witness for C2 at a concrete failing trace. -/
theorem capture_failure_hides_pixels_until_success_witness :
    sampleFailA.isFail = true ∧
    [sampleFailB].all NativeCapture.isFail = true ∧
    ((∃ e, (sampleSession.capture sampleFailA).2 = Except.error e) ∧
     ((sampleSession.capture sampleFailA).1).pixel_provider = PixelProvider.none ∧
     (runCaptures ((sampleSession.capture sampleFailA).1) [sampleFailB]).pixel_provider
       = PixelProvider.none ∧
     ((runCaptures ((sampleSession.capture sampleFailA).1) [sampleFailB]).capture
         (NativeCapture.ok [9, 9, 9, 9] 1 1)).2 = Except.ok () ∧
     (((runCaptures ((sampleSession.capture sampleFailA).1) [sampleFailB]).capture
         (NativeCapture.ok [9, 9, 9, 9] 1 1)).1).pixel_provider
       = PixelProvider.bgr0 ([9, 9, 9, 9].take (1 * 1 * 4))) :=
  ⟨by decide, by decide,
    capture_failure_hides_pixels_until_success sampleSession sampleFailA [sampleFailB]
      [9, 9, 9, 9] 1 1 (by decide) (by decide)⟩

/-- C3: size() returns (0,0) before any successful capture() — on the fresh
session and after any run of failing captures — and a failed capture() leaves
the dimensions unchanged even though pixel_provider() reports none. -/
theorem size_persists_across_failed_capture (c : Bool) (s : ScreenCaptureX11)
    (r : NativeCapture) (rs : List NativeCapture)
    (hr : r.isFail = true) (hrs : rs.all NativeCapture.isFail = true) :
    ScreenCaptureX11.new CError.new c = Except.ok (ScreenCaptureX11.fresh c) ∧
    (ScreenCaptureX11.fresh c).size = (0, 0) ∧
    (runCaptures (ScreenCaptureX11.fresh c) rs).size = (0, 0) ∧
    ((s.capture r).1).size = s.size ∧
    ((s.capture r).1).pixel_provider = PixelProvider.none := by
  refine ⟨rfl, rfl, ?_, ?_, ?_⟩
  · rcases runCaptures_fail rs (ScreenCaptureX11.fresh c) hrs with ⟨hw, hh, _⟩
    show ((runCaptures (ScreenCaptureX11.fresh c) rs).img.width,
      (runCaptures (ScreenCaptureX11.fresh c) rs).img.height) = (0, 0)
    rw [hw, hh]
    rfl
  · rw [capture_fail_img s r hr]
    rfl
  · rw [capture_fail_img s r hr]
    exact pixel_provider_of_none _ rfl

/-- Witness for C3 at a session holding a 2x2 frame. -/
theorem size_persists_across_failed_capture_witness :
    sampleFailA.isFail = true ∧
    [sampleFailB].all NativeCapture.isFail = true ∧
    (ScreenCaptureX11.new CError.new false = Except.ok (ScreenCaptureX11.fresh false) ∧
     (ScreenCaptureX11.fresh false).size = (0, 0) ∧
     (runCaptures (ScreenCaptureX11.fresh false) [sampleFailB]).size = (0, 0) ∧
     ((sampleFrameSession.capture sampleFailA).1).size = sampleFrameSession.size ∧
     ((sampleFrameSession.capture sampleFailA).1).pixel_provider = PixelProvider.none) :=
  ⟨by decide, by decide,
    size_persists_across_failed_capture false sampleFrameSession sampleFailA [sampleFailB]
      (by decide) (by decide)⟩

/-- C4: decoding any 8-bit Button value keeps only the 5 defined bits and
discards unknown bits without failing; 0xFF decodes to exactly 0b00011111 and
0x00 to the empty bit set. -/
theorem button_decode_keeps_only_defined_bits (b : Nat) (hb : b < 256) :
    from_str (Json.num (b : Int)) = Except.ok (Button.from_bits_truncate b) ∧
    Button.from_bits_truncate b &&& Button.allBits = Button.from_bits_truncate b ∧
    Button.from_bits_truncate b ≤ Button.allBits ∧
    from_str (Json.num 255) = Except.ok 0b00011111 ∧
    from_str (Json.num 0) = Except.ok 0 := by
  refine ⟨?_, ?_, Nat.and_le_right, rfl, rfl⟩
  · simp [from_str_natCast b hb, Button.from_bits_truncate, Button.allBits_eq]
  · show (b &&& 31) &&& 31 = b &&& 31
    rw [Nat.and_assoc]
    congr 1

/-- Witness for C4 at the out-of-range bit pattern 173 = 0b10101101. -/
theorem button_decode_keeps_only_defined_bits_witness :
    (173 : Nat) < 256 ∧
    (from_str (Json.num ((173 : Nat) : Int)) = Except.ok (Button.from_bits_truncate 173) ∧
     Button.from_bits_truncate 173 &&& Button.allBits = Button.from_bits_truncate 173 ∧
     Button.from_bits_truncate 173 ≤ Button.allBits ∧
     from_str (Json.num 255) = Except.ok 0b00011111 ∧
     from_str (Json.num 0) = Except.ok 0) :=
  ⟨by decide, button_decode_keeps_only_defined_bits 173 (by decide)⟩

/-- C5 counterexample: encoding a representative PointerEvent message with
the derived serializer and decoding it back fails — the bitflags-derived
Serialize writes button/buttons as an object holding a bits field, while the
custom deserializer requires a bare unsigned 8-bit integer. -/
theorem pointer_event_roundtrip_encode_decode_fails :
    (decodeMessageInbound (encodeMessageInbound
        (MessageInbound.pointerEvent samplePointerEvent))).isOk = false := by
  decide

/-- C5 (amended): round-trip holds for TryGetFrame, GetCapturableList, Config
and every MessageOutbound variant under the documented tags; and a
PointerEvent message in the documented wire form — button/buttons as a bare
unsigned 8-bit integer holding only defined bits — decodes to the equal
value.  Only MessageInbound::PointerEvent's derived encoding breaks the
round-trip. -/
theorem message_roundtrip_amended (mo : MessageOutbound) (c : ClientConfiguration)
    (e : PointerEvent) (hb : e.button &&& 31 = e.button)
    (hbs : e.buttons &&& 31 = e.buttons) :
    decodeMessageOutbound (encodeMessageOutbound mo) = Except.ok mo ∧
    decodeMessageInbound (encodeMessageInbound MessageInbound.tryGetFrame) =
      Except.ok MessageInbound.tryGetFrame ∧
    decodeMessageInbound (encodeMessageInbound MessageInbound.getCapturableList) =
      Except.ok MessageInbound.getCapturableList ∧
    decodeMessageInbound (encodeMessageInbound (MessageInbound.config c)) =
      Except.ok (MessageInbound.config c) ∧
    decodeMessageInbound (Json.obj [("PointerEvent", encodePointerEventWire e)]) =
      Except.ok (MessageInbound.pointerEvent e) := by
  refine ⟨outbound_rt mo, rfl, rfl, rfl, ?_⟩
  have hstep : decodeMessageInbound (Json.obj [("PointerEvent", encodePointerEventWire e)]) =
      (decodePointerEvent (encodePointerEventWire e)).map MessageInbound.pointerEvent := rfl
  rw [hstep, wire_decode e hb hbs]
  rfl

/-- Witness for the amended C5 at representative values. -/
theorem message_roundtrip_amended_witness :
    samplePointerEvent.button &&& 31 = samplePointerEvent.button ∧
    samplePointerEvent.buttons &&& 31 = samplePointerEvent.buttons ∧
    decodeMessageOutbound (encodeMessageOutbound sampleOutbound) = Except.ok sampleOutbound ∧
    decodeMessageInbound (encodeMessageInbound (MessageInbound.config sampleConfig)) =
      Except.ok (MessageInbound.config sampleConfig) ∧
    decodeMessageInbound (Json.obj [("PointerEvent", encodePointerEventWire samplePointerEvent)]) =
      Except.ok (MessageInbound.pointerEvent samplePointerEvent) := by
  have h := message_roundtrip_amended sampleOutbound sampleConfig samplePointerEvent
    (by decide) (by decide)
  exact ⟨by decide, by decide, h.1, h.2.2.2.1, h.2.2.2.2⟩

/-- C6: over a whole session life, stop_capture is issued exactly once when
the native start succeeded and never when it failed; a failed construction
produces no session value whose destructor could run. -/
theorem stop_called_exactly_once_iff_start_succeeded (e : CError) (c : Bool)
    (cs : List NativeCapture) :
    stopsIn (sessionLifecycleTrace e c cs) = (if e.is_err then 0 else 1) ∧
    sessionCreated e c = !e.is_err := by
  cases he : e.is_err with
  | true => simp [sessionLifecycleTrace, ScreenCaptureX11.new, sessionCreated, he, stopsIn]
  | false =>
      simp [sessionLifecycleTrace, ScreenCaptureX11.new, sessionCreated, he, stopsIn,
        stopsIn_capturelist]

/-- C7: over every valid clone/drop sequence on the shared display, the
display is closed exactly when no holder remains alive — it is never closed
while the context or any capturable handle still holds it.  The claim holds
at every intermediate state as well, since every prefix of a valid sequence
is itself a valid sequence quantified over here. -/
theorem display_closed_iff_no_holder (ops : List ArcOp)
    (h : validFrom initDisp ops = true) :
    ((runOps initDisp ops).closed = true ↔ (runOps initDisp ops).holders = 0) := by
  have hinv := validFrom_closed_eq ops initDisp (by rfl) h
  rw [hinv]
  simp

/-- Witness for C7: clone a handle, drop it, then drop the context. -/
theorem display_closed_iff_no_holder_witness :
    validFrom initDisp [ArcOp.acquire, ArcOp.release, ArcOp.release] = true ∧
    ((runOps initDisp [ArcOp.acquire, ArcOp.release, ArcOp.release]).closed = true ↔
      (runOps initDisp [ArcOp.acquire, ArcOp.release, ArcOp.release]).holders = 0) :=
  ⟨by decide, display_closed_iff_no_holder [ArcOp.acquire, ArcOp.release, ArcOp.release]
    (by decide)⟩

/-- C8: for every device name free of interior NUL (so that the call reaches
the native boundary) and every native outcome, map_input_device_to_entire_screen
returns normally, logging the failure exactly when the native code is nonzero
and handing the error object back as a plain value — never as a propagated
error. -/
theorem map_input_device_failure_is_advisory (name : String) (pen : Bool)
    (e : CError) (h : hasInteriorNul name = false) :
    X11Context.map_input_device_to_entire_screen name pen e
      = MapOutcome.returned e.is_err e := by
  simp [X11Context.map_input_device_to_entire_screen, h]

/-- Witness for C8 at a failing native mapping. -/
theorem map_input_device_failure_is_advisory_witness :
    hasInteriorNul "Wacom Pen" = false ∧
    X11Context.map_input_device_to_entire_screen "Wacom Pen" true
        { code := 7, message := "mapping failed" }
      = MapOutcome.returned ({ code := 7, message := "mapping failed" } : CError).is_err
          { code := 7, message := "mapping failed" } :=
  ⟨by decide, map_input_device_failure_is_advisory "Wacom Pen" true
    { code := 7, message := "mapping failed" } (by decide)⟩

/-- C9 counterexample: the native calls of Clone for X11Capturable
(clone_capturable) and Drop for X11Capturable (destroy_capturable) are
executed without the native/UI lock being held, refuting that every
native-boundary call runs under the lock. -/
theorem clone_and_destroy_native_calls_unlocked :
    nativeUnderLock capturableCloneTrace = false ∧
    nativeUnderLock capturableDropTrace = false := by
  decide

/-- C9 (amended): display close, enumeration, geometry, before_input,
input-device mapping, session start, frame capture and session stop each
acquire the lock immediately before and release it immediately after their
native call; but display open, capturable clone, capturable destroy and the
name query perform their native call without acquiring the lock. -/
theorem locking_discipline_per_operation :
    xdisplayDropTrace = lockedCall NativeKind.xCloseDisplay ∧
    capturablesTrace = lockedCall NativeKind.createCapturables ∧
    geometryTrace = lockedCall NativeKind.getGeometryRelative ∧
    beforeInputTrace = lockedCall NativeKind.capturableBeforeInput ∧
    mapInputTrace = lockedCall NativeKind.mapInputDevice ∧
    sessionStartTrace = lockedCall NativeKind.startCapture ∧
    sessionDropTrace = lockedCall NativeKind.stopCapture ∧
    captureTrace = lockedCall NativeKind.captureSceen ∧
    nativeUnderLock xdisplayNewTrace = false ∧
    nativeUnderLock capturableCloneTrace = false ∧
    nativeUnderLock capturableDropTrace = false ∧
    nativeUnderLock capturableNameTrace = false := by
  decide

/-- C10: if the device name holds an interior NUL byte, the CString
conversion's unwrap makes map_input_device_to_entire_screen panic instead of
returning, so the failure never reaches the ErrorChannel. -/
theorem map_input_device_panics_on_interior_nul (name : String) (pen : Bool)
    (e : CError) (h : hasInteriorNul name = true) :
    X11Context.map_input_device_to_entire_screen name pen e = MapOutcome.panicked := by
  simp [X11Context.map_input_device_to_entire_screen, h]

/-- Witness for C10 at a name with an embedded NUL byte. -/
theorem map_input_device_panics_on_interior_nul_witness :
    hasInteriorNul (String.mk [Char.ofNat 112, Char.ofNat 0, Char.ofNat 113]) = true ∧
    X11Context.map_input_device_to_entire_screen
        (String.mk [Char.ofNat 112, Char.ofNat 0, Char.ofNat 113]) false CError.new
      = MapOutcome.panicked :=
  ⟨by decide, map_input_device_panics_on_interior_nul
    (String.mk [Char.ofNat 112, Char.ofNat 0, Char.ofNat 113]) false CError.new (by decide)⟩

end Weylus
